import Mathlib

/-!
Shallow embedding of the Lay3rLabs example AVS oracle contracts.

The embedding covers the two verifier contracts of the repository:

* `contracts/verifier-simple/src/contract.rs` — the exact-match verifier
  (`instantiate`, `executed_task`, `ensure_valid_vote`,
  `load_or_initialize_metadata`), and
* `oracle-verifier-example/src/contract.rs` — the median-spread verifier
  (`executed_task`, `calculate_median`, `calculate_allowed_range`,
  `filter_valid_votes`, `is_threshold_met`, `identify_slashable_operators`,
  `process_votes`) together with `validate_percentages` from its `msg.rs`.

Modelling conventions:

* `cosmwasm_std::Decimal` is an 18-decimal fixed-point number stored as a
  `Uint128` of "atomics"; we represent a `Decimal` by its atomics as a `Nat`
  (`decimalOne = 10^18` is the representation of `1`).  The `Decimal`
  ordering coincides with the `Nat` ordering of atomics.  `Uint128` values
  (voting powers) are likewise `Nat`s; the claims under study stay inside the
  overflow-free domain of `Uint128`, which theorems delimit by explicit
  hypotheses where relevant.
* CosmWasm storage (`Item` / `Map`) is modelled by association lists with
  first-match lookup; `save` replaces any previous entry for the key.
  `Map::range(.., Order::Ascending)` is modelled by sorting the matching
  entries by key.
* Contract entry points are modelled as functions from the inputs and the
  storage to a pair of an `Except ContractError` result and the storage as
  left behind by the raw execution.  Errors in the modelled code paths occur
  before any write, so an error result is always paired with the unchanged
  store (the CosmWasm host additionally reverts all writes of a failed
  execution; the raw model is the stronger statement).
* External queries (task registry, power provider) can fail; a querier is a
  record of `Option`-valued functions, `none` standing for a failed query.
* String payloads that the Rust code runs through `serde_json` are modelled
  by passing the parse function (`parses` / `parsePrice`) as an explicit
  parameter of the entry point.
-/

namespace AvsOracle

/-- Bech32 addresses are never inspected by the contract logic; we model them
as strings. -/
abbrev Addr := String

/-- Task lifecycle status (`lavs_apis::tasks::TaskStatus`). -/
inductive TaskStatus
  | Open
  | Completed
  | Expired
deriving DecidableEq, Repr

/-- Union of the error variants of the two contracts that the modelled code
paths can produce (`ContractError` of each crate, plus the payment,
parse and std-query errors that the Rust code surfaces via `?`). -/
inductive ContractError
  | OperatorAlreadyVoted (operator : Addr)
  | TaskAlreadyCompleted
  | TaskExpired
  | Unauthorized
  | InvalidPercentage
  | InvalidPercentageDec (field : String) (value : Nat)
  | InvalidSpread (slashable allowed : Nat)
  | ZeroPrice
  | PaymentError
  | ParseError
  | StdError
deriving DecidableEq, Repr

deriving instance DecidableEq for Except

/-- Representation of `Decimal::one()`: `10^18` atomics. -/
def decimalOne : Nat := 10 ^ 18

/-- Representation of `Decimal::percent(p)`: `p * 10^16` atomics. -/
def decimalPercent (p : Nat) : Nat := p * 10 ^ 16

/-- Embedding of `Decimal::from_ratio(n, d)` (atomics view): the atomics of the
result are `n * 10^18 / d`, `Uint128` division truncating toward zero. -/
def ratioFloor (n d : Nat) : Nat := n * decimalOne / d

/-- Embedding of `Decimal * Decimal` (atomics view): full multiply of the
atomics, then truncating division by `10^18`. -/
def decimalMul (a b : Nat) : Nat := a * b / decimalOne

/-- Embedding of `Uint128::mul_ceil(Decimal)` (used for `power_required`):
`ceil(u * atomics / 10^18)` via the usual `(num + den - 1) / den` form. -/
def mulCeil (u atomics : Nat) : Nat := (u * atomics + (decimalOne - 1)) / decimalOne

/-- First-match lookup in an association list (model of `Map::may_load`). -/
def alistFind {κ ν : Type} [DecidableEq κ] (k : κ) : List (κ × ν) → Option ν
  | [] => none
  | (k₁, v) :: rest => if k₁ = k then some v else alistFind k rest

/-- Insert-or-replace in an association list (model of `Map::save`). -/
def alistInsert {κ ν : Type} [DecidableEq κ] (k : κ) (v : ν) (l : List (κ × ν)) :
    List (κ × ν) :=
  (k, v) :: l.filter (fun kv => decide (kv.1 ≠ k))

/-- Insertion step of a boolean-predicate insertion sort. -/
def insertLe {α : Type} (le : α → α → Bool) (x : α) : List α → List α
  | [] => [x]
  | y :: ys => if le x y then x :: y :: ys else y :: insertLe le x ys

/-- Insertion sort by a boolean predicate (model of the ascending key order of
`Map::range`). -/
def sortLe {α : Type} (le : α → α → Bool) (l : List α) : List α :=
  l.foldr (insertLe le) []

/-- Byte-wise comparison order on addresses, as `cw_storage_plus` iterates map
keys in ascending byte order. -/
def addrLe (a b : Addr) : Bool := !(compare a b == Ordering.gt)

/-- Block environment: the only part the contracts read is the block time in
seconds (`env.block.time.seconds()`). -/
structure BlockEnv where
  time : Nat
deriving DecidableEq, Repr

/-- Message info: sender address and attached funds; `nonpayable` only checks
whether the funds vector is empty, so coins are opaque `Nat`s here. -/
structure MessageInfo where
  sender : Addr
  funds : List Nat
deriving DecidableEq, Repr

/-- Task metadata snapshot (`TaskMetadata` of both contracts). -/
structure TaskMetadata where
  power_required : Nat
  status : TaskStatus
  created_height : Nat
  expires_time : Nat
deriving DecidableEq, Repr

/-- Embedding of `TaskMetadata::is_expired`: current block time (seconds) is at
least the expiry time. -/
def TaskMetadata.is_expired (m : TaskMetadata) (env : BlockEnv) : Bool :=
  decide (m.expires_time ≤ env.time)

/-- Response of the task registry status query
(`TaskQueryMsg::TaskStatus` → `TaskStatusResponse`). -/
structure TaskStatusResponse where
  status : TaskStatus
  created_height : Nat
  expires_time : Nat
deriving DecidableEq, Repr

/-- External collaborators: the task registry and the power provider, as
`Option`-valued query functions (`none` = the smart query failed). -/
structure Querier where
  taskStatus : Addr → Nat → Option TaskStatusResponse
  votingPowerAtHeight : Addr → Addr → Nat → Option Nat
  totalPowerAtHeight : Addr → Nat → Option Nat

/-- Contract response skeleton: dispatched wasm messages and attributes, with
the message payload type left as a parameter (the two contracts dispatch
differently-shaped `Complete` messages). -/
structure Response (μ : Type) where
  messages : List μ
  attributes : List (String × String)
deriving DecidableEq, Repr

/-- Embedding of `Response::default()` / `Response::new()`. -/
def Response.empty {μ : Type} : Response μ := { messages := [], attributes := [] }

end AvsOracle

namespace AvsOracle

/-! Median-spread verifier (`oracle-verifier-example/src/contract.rs`):
vote data, configuration and the pure tally functions. -/

/-- One recorded vote of the median-spread verifier (`OperatorVote`):
voting power and submitted price, both in atomics/`Nat` view. -/
structure OperatorVote where
  power : Nat
  price : Nat
deriving DecidableEq, Repr

/-- Configuration of the median-spread verifier (`Config` as used by
`contract.rs`: the operators contract plus the three `Decimal` percentages and
the `required_percentage`). -/
structure Config where
  operators : Addr
  threshold_percent : Nat
  allowed_spread : Nat
  slashable_spread : Nat
  required_percentage : Nat
deriving DecidableEq, Repr

/-- Embedding of `calculate_median`: sort ascending; empty list yields zero;
even length yields the two central elements added and divided by two
(`Decimal / Uint128` division truncates at the 18th decimal); odd length
yields the middle element. -/
def calculate_median (values : List Nat) : Nat :=
  let sorted := List.insertionSort (· ≤ ·) values
  if sorted.length = 0 then 0
  else if sorted.length % 2 = 0 then
    (sorted.getD (sorted.length / 2 - 1) 0 + sorted.getD (sorted.length / 2) 0) / 2
  else sorted.getD (sorted.length / 2) 0

/-- Embedding of `calculate_allowed_range`: `(median * (1 - spread),
median * (1 + spread))` with `Decimal` multiplication. -/
def calculate_allowed_range (median spread : Nat) : Nat × Nat :=
  (decimalMul median (decimalOne - spread), decimalMul median (decimalOne + spread))

/-- Embedding of `filter_valid_votes`: keep the votes whose price lies in the
inclusive band. -/
def filter_valid_votes (votes : List (Addr × OperatorVote))
    (allowed_minimum allowed_maximum : Nat) : List (Addr × OperatorVote) :=
  votes.filter fun pv =>
    decide (allowed_minimum ≤ pv.2.price ∧ pv.2.price ≤ allowed_maximum)

/-- Embedding of `is_threshold_met`:
`Decimal::from_ratio(valid_power, total_power) >= threshold_percent`. -/
def is_threshold_met (valid_power total_power threshold_percent : Nat) : Bool :=
  decide (threshold_percent ≤ ratioFloor valid_power total_power)

/-- Embedding of `identify_slashable_operators`: the addresses whose price lies
strictly outside the slashable band. -/
def identify_slashable_operators (votes : List (Addr × OperatorVote))
    (slashable_minimum slashable_maximum : Nat) : List Addr :=
  votes.filterMap fun pv =>
    if pv.2.price < slashable_minimum ∨ slashable_maximum < pv.2.price then
      some pv.1
    else none

/-- Embedding of `process_votes`: median of all prices, allowed band, valid
weight, threshold check, slashable band, slashable operators.  The Rust
function returns a `Result` but has no failing path. -/
def process_votes (votes : List (Addr × OperatorVote)) (total_power : Nat)
    (config : Config) : Except ContractError (Nat × List Addr × Bool) :=
  let all_prices := votes.map fun pv => pv.2.price
  let median := calculate_median all_prices
  let allowed := calculate_allowed_range median config.allowed_spread
  let valid_votes := filter_valid_votes votes allowed.1 allowed.2
  let valid_power := (valid_votes.map fun pv => pv.2.power).sum
  let met := is_threshold_met valid_power total_power config.threshold_percent
  let slashable := calculate_allowed_range median config.slashable_spread
  let slashable_operators := identify_slashable_operators votes slashable.1 slashable.2
  .ok (median, slashable_operators, met)

/-- Embedding of `InstantiateMsg::validate_percentages` from
`oracle-verifier-example/src/msg.rs`: each of `threshold_percent`,
`allowed_spread`, `slashable_spread` (checked in that order) must be nonzero
and at most `Decimal::percent(100)`, and `slashable_spread` must exceed
`allowed_spread`. -/
def validate_percentages (threshold_percent allowed_spread slashable_spread : Nat) :
    Except ContractError Unit :=
  if threshold_percent = 0 ∨ decimalPercent 100 < threshold_percent then
    .error (.InvalidPercentageDec "threshold_percent" threshold_percent)
  else if allowed_spread = 0 ∨ decimalPercent 100 < allowed_spread then
    .error (.InvalidPercentageDec "allowed_spread" allowed_spread)
  else if slashable_spread = 0 ∨ decimalPercent 100 < slashable_spread then
    .error (.InvalidPercentageDec "slashable_spread" slashable_spread)
  else if slashable_spread ≤ allowed_spread then
    .error (.InvalidSpread slashable_spread allowed_spread)
  else .ok ()

end AvsOracle

namespace AvsOracle

/-! Exact-match verifier (`contracts/verifier-simple/src/contract.rs`). -/

/-- One recorded vote of the exact-match verifier: voting power and the raw
result string (`state.rs` stores the submitted string verbatim). -/
structure OperatorVoteVS where
  power : Nat
  result : String
deriving DecidableEq, Repr

/-- Configuration of the exact-match verifier (`Config` in its `state.rs`):
operators contract and `required_percentage : u32`. -/
structure ConfigVS where
  operators : Addr
  required_percentage : Nat
deriving DecidableEq, Repr

/-- Storage of the exact-match verifier: `CONFIG`, `VOTES` keyed by
`(task_queue, task_id, operator)`, `TASKS` keyed by `(task_queue, task_id)`,
and the per-result `OPTIONS` tallies keyed by `(task_queue, task_id, result)`. -/
structure StoreVS where
  config : Option ConfigVS
  votes : List ((Addr × Nat × Addr) × OperatorVoteVS)
  tasks : List ((Addr × Nat) × TaskMetadata)
  options : List ((Addr × Nat × String) × Nat)
deriving DecidableEq, Repr

/-- Embedding of `instantiate` of the exact-match verifier: reject
`required_percentage > 100 || required_percentage == 0`, otherwise save the
configuration. -/
def vs_instantiate (s : StoreVS) (operator_contract : Addr)
    (required_percentage : Nat) : Except ContractError (Response Unit) × StoreVS :=
  if 100 < required_percentage ∨ required_percentage = 0 then
    (.error .InvalidPercentage, s)
  else
    (.ok Response.empty,
      { s with config := some ⟨operator_contract, required_percentage⟩ })

/-- Embedding of `load_or_initialize_metadata` of the exact-match verifier.
A cached snapshot is returned unchanged when Open and unexpired, and rejected
when Completed, Expired, or past its expiry time.  Without a snapshot the task
registry is queried; for an Open task the total power at the creation height is
queried and `power_required = total.mul_ceil(Decimal::percent(pct))` is
computed, saved and returned. -/
def load_or_initialize_metadata (q : Querier) (env : BlockEnv) (config : ConfigVS)
    (s : StoreVS) (task_queue : Addr) (task_id : Nat) :
    Except ContractError TaskMetadata × StoreVS :=
  match alistFind (task_queue, task_id) s.tasks with
  | some meta =>
    match meta.status with
    | .Completed => (.error .TaskAlreadyCompleted, s)
    | .Expired => (.error .TaskExpired, s)
    | .Open =>
      if meta.is_expired env then (.error .TaskExpired, s) else (.ok meta, s)
  | none =>
    match q.taskStatus task_queue task_id with
    | none => (.error .StdError, s)
    | some task_status =>
      match task_status.status with
      | .Completed => (.error .TaskAlreadyCompleted, s)
      | .Expired => (.error .TaskExpired, s)
      | .Open =>
        match q.totalPowerAtHeight config.operators task_status.created_height with
        | none => (.error .StdError, s)
        | some total_power =>
          let fraction := decimalPercent config.required_percentage
          let power_required := mulCeil total_power fraction
          let meta : TaskMetadata :=
            { power_required := power_required
              status := .Open
              created_height := task_status.created_height
              expires_time := task_status.expires_time }
          (.ok meta, { s with tasks := alistInsert (task_queue, task_id) meta s.tasks })

/-- Embedding of `ensure_valid_vote` of the exact-match verifier: reject a
second vote by the same operator; load the config; swallow every error of
`load_or_initialize_metadata` into an `Ok(None)` early exit; query the
operator voting power at the snapshot creation height; reject zero power. -/
def ensure_valid_vote (q : Querier) (env : BlockEnv) (s : StoreVS)
    (task_queue : Addr) (task_id : Nat) (operator : Addr) :
    Except ContractError (Option (TaskMetadata × Nat)) × StoreVS :=
  match alistFind (task_queue, task_id, operator) s.votes with
  | some _ => (.error (.OperatorAlreadyVoted operator), s)
  | none =>
    match s.config with
    | none => (.error .StdError, s)
    | some config =>
      match load_or_initialize_metadata q env config s task_queue task_id with
      | (.error _, s₁) => (.ok none, s₁)
      | (.ok metadata, s₁) =>
        match q.votingPowerAtHeight config.operators operator metadata.created_height with
        | none => (.error .StdError, s₁)
        | some power =>
          if power = 0 then (.error .Unauthorized, s₁)
          else (.ok (some (metadata, power)), s₁)

/-- Modelled from the spec: `record_vote` lives in verifier-simple's
`state.rs`, which is not among the sources.  Per the Vote Ledger (spec §4.2)
it fails with the duplicate-vote error when an entry already exists and
otherwise inserts the vote, and per the Exact-Match strategy (spec §4.3) it
returns the accumulated weight of all votes sharing the same result value as
the new vote (the running `OPTIONS` tally). -/
def record_vote (s : StoreVS) (task_queue : Addr) (task_id : Nat)
    (operator : Addr) (result : String) (power : Nat) :
    Except ContractError Nat × StoreVS :=
  match alistFind (task_queue, task_id, operator) s.votes with
  | some _ => (.error (.OperatorAlreadyVoted operator), s)
  | none =>
    let tally := (alistFind (task_queue, task_id, result) s.options).getD 0 + power
    (.ok tally,
      { s with
        votes := alistInsert (task_queue, task_id, operator) ⟨power, result⟩ s.votes
        options := alistInsert (task_queue, task_id, result) tally s.options })

/-- Embedding of `executed_task` of the exact-match verifier.  `parses` stands
for `from_json::<ResponseType>` on the submitted string (the parsed value is
only type-checked; the raw string is what gets recorded and dispatched). -/
def vs_executed_task (q : Querier) (parses : String → Bool) (env : BlockEnv)
    (info : MessageInfo) (s : StoreVS) (task_queue_contract : Addr)
    (task_id : Nat) (result : String) :
    Except ContractError (Response (Addr × Nat × String)) × StoreVS :=
  if info.funds ≠ [] then (.error .PaymentError, s)
  else
    let task_queue := task_queue_contract
    let operator := info.sender
    if parses result = false then (.error .ParseError, s)
    else
      match ensure_valid_vote q env s task_queue task_id operator with
      | (.error e, s₁) => (.error e, s₁)
      | (.ok none, s₁) => (.ok Response.empty, s₁)
      | (.ok (some (task_data, power)), s₁) =>
        match record_vote s₁ task_queue task_id operator result power with
        | (.error e, s₂) => (.error e, s₂)
        | (.ok tally, s₂) =>
          let base : List (String × String) :=
            [("action", "execute"), ("task_id", toString task_id),
             ("task_queue", task_queue_contract), ("operator", operator)]
          if task_data.power_required ≤ tally then
            let task_done := { task_data with status := TaskStatus.Completed }
            let s₃ :=
              { s₂ with tasks := alistInsert (task_queue, task_id) task_done s₂.tasks }
            (.ok { messages := [(task_queue_contract, task_id, result)]
                   attributes := base ++ [("completed", "true")] }, s₃)
          else
            (.ok { messages := []
                   attributes := base ++ [("completed", "false")] }, s₂)

end AvsOracle

namespace AvsOracle

/-! Median-spread verifier: storage and the `executed_task` entry point.
The entry point delegates its vote/task validation to
`lavs_helpers::verifier::ensure_valid_vote`, whose source (the
`packages/lavs-helpers` crate) is not among the sources; it is modelled from
the spec below, mirroring the sibling implementation in verifier-simple. -/

/-- Storage of the median-spread verifier: `CONFIG`, `VOTES`, `TASKS` and the
append-only `SLASHED_OPERATORS` marker map. -/
structure StoreO where
  config : Option Config
  votes : List ((Addr × Nat × Addr) × OperatorVote)
  tasks : List ((Addr × Nat) × TaskMetadata)
  slashed_operators : List (Addr × Bool)
deriving DecidableEq, Repr

/-- Modelled from the spec: the Task Metadata Cache step of
`lavs_helpers::verifier::ensure_valid_vote` (spec §4.1), the crate not being
among the sources.  A cached snapshot is returned unchanged when Open and
unexpired and rejected when Completed or (derived-)Expired; otherwise the task
registry is queried, a non-Open status is rejected, and for an Open task
`requiredWeight = ceiling(totalWeight * requiredPercentage / 100)` is computed
from the total power at the creation checkpoint, persisted and returned. -/
def o_load_or_initialize_metadata (q : Querier) (env : BlockEnv)
    (required_percentage : Nat) (operators : Addr) (s : StoreO)
    (task_queue : Addr) (task_id : Nat) :
    Except ContractError TaskMetadata × StoreO :=
  match alistFind (task_queue, task_id) s.tasks with
  | some meta =>
    match meta.status with
    | .Completed => (.error .TaskAlreadyCompleted, s)
    | .Expired => (.error .TaskExpired, s)
    | .Open =>
      if meta.is_expired env then (.error .TaskExpired, s) else (.ok meta, s)
  | none =>
    match q.taskStatus task_queue task_id with
    | none => (.error .StdError, s)
    | some task_status =>
      match task_status.status with
      | .Completed => (.error .TaskAlreadyCompleted, s)
      | .Expired => (.error .TaskExpired, s)
      | .Open =>
        match q.totalPowerAtHeight operators task_status.created_height with
        | none => (.error .StdError, s)
        | some total_power =>
          let fraction := decimalPercent required_percentage
          let power_required := mulCeil total_power fraction
          let meta : TaskMetadata :=
            { power_required := power_required
              status := .Open
              created_height := task_status.created_height
              expires_time := task_status.expires_time }
          (.ok meta, { s with tasks := alistInsert (task_queue, task_id) meta s.tasks })

/-- Modelled from the spec: `lavs_helpers::verifier::ensure_valid_vote`
(spec §4.7 a–c), the crate not being among the sources.  It rejects a repeat
vote by the same operator with the duplicate-vote error, swallows every
failure of the metadata load/initialization into an `Ok(None)` benign early
exit, queries the operator voting power at the snapshot creation checkpoint
and rejects zero power as Unauthorized. -/
def helpers_ensure_valid_vote (q : Querier) (env : BlockEnv) (s : StoreO)
    (task_queue : Addr) (task_id : Nat) (operator : Addr)
    (required_percentage : Nat) (operators : Addr) :
    Except ContractError (Option (TaskMetadata × Nat)) × StoreO :=
  match alistFind (task_queue, task_id, operator) s.votes with
  | some _ => (.error (.OperatorAlreadyVoted operator), s)
  | none =>
    match o_load_or_initialize_metadata q env required_percentage operators s
        task_queue task_id with
    | (.error _, s₁) => (.ok none, s₁)
    | (.ok metadata, s₁) =>
      match q.votingPowerAtHeight operators operator metadata.created_height with
      | none => (.error .StdError, s₁)
      | some power =>
        if power = 0 then (.error .Unauthorized, s₁)
        else (.ok (some (metadata, power)), s₁)

/-- Embedding of `VOTES.save` on the median-spread store. -/
def saveVoteO (s : StoreO) (task_queue : Addr) (task_id : Nat) (operator : Addr)
    (vote : OperatorVote) : StoreO :=
  { s with votes := alistInsert (task_queue, task_id, operator) vote s.votes }

/-- Embedding of `VOTES.prefix((task_queue, task_id)).range(.., Ascending)`:
the votes of the task, in ascending operator-address order. -/
def votesForTask (s : StoreO) (task_queue : Addr) (task_id : Nat) :
    List (Addr × OperatorVote) :=
  sortLe (fun a b => addrLe a.1 b.1)
    (s.votes.filterMap fun kv =>
      if kv.1.1 = task_queue ∧ kv.1.2.1 = task_id then some (kv.1.2.2, kv.2) else none)

/-- Embedding of `executed_task` of the median-spread verifier.  `parsePrice`
stands for `from_str::<PriceResult>` on the submitted string, returning the
price atomics.  After the validation helper, the vote is stored, and once the
accumulated power of all votes reaches `power_required` the tally runs: on a
met threshold, the slashable operators are flagged, the task is completed and
a `Complete` message carrying the median is dispatched; otherwise only a
`threshold_not_met` attribute is returned. -/
def executed_task (q : Querier) (parsePrice : String → Option Nat) (env : BlockEnv)
    (info : MessageInfo) (s : StoreO) (task_queue_contract : Addr)
    (task_id : Nat) (result : String) :
    Except ContractError (Response (Addr × Nat × Nat)) × StoreO :=
  if info.funds ≠ [] then (.error .PaymentError, s)
  else
    let task_queue := task_queue_contract
    let operator := info.sender
    match s.config with
    | none => (.error .StdError, s)
    | some config =>
      match helpers_ensure_valid_vote q env s task_queue task_id operator
          config.required_percentage config.operators with
      | (.error e, s₁) => (.error e, s₁)
      | (.ok none, s₁) => (.ok Response.empty, s₁)
      | (.ok (some (task_data, power)), s₁) =>
        match parsePrice result with
        | none => (.error .ParseError, s₁)
        | some price =>
          if price = 0 then (.error .ZeroPrice, s₁)
          else
            let s₂ := saveVoteO s₁ task_queue task_id operator ⟨power, price⟩
            let all_votes := votesForTask s₂ task_queue task_id
            let total_power := (all_votes.map fun pv => pv.2.power).sum
            if total_power < task_data.power_required then
              (.ok { messages := []
                     attributes := [("method", "executed_task"),
                                    ("status", "vote_stored")] }, s₂)
            else
              match s₂.config with
              | none => (.error .StdError, s₂)
              | some config₂ =>
                match process_votes all_votes total_power config₂ with
                | .error e => (.error e, s₂)
                | .ok (median, slashable_operators, met) =>
                  if met then
                    let s₃ := slashable_operators.foldl
                      (fun st op =>
                        { st with slashed_operators := alistInsert op true st.slashed_operators })
                      s₂
                    let task_done := { task_data with status := TaskStatus.Completed }
                    let s₄ :=
                      { s₃ with tasks := alistInsert (task_queue, task_id) task_done s₃.tasks }
                    (.ok { messages := [(task_queue_contract, task_id, median)]
                           attributes := [("new_price", toString median),
                                          ("method", "executed_task"),
                                          ("task_id", toString task_id),
                                          ("task_queue_contract", task_queue_contract)] }, s₄)
                  else
                    (.ok { messages := []
                           attributes := [("status", "threshold_not_met"),
                                          ("method", "executed_task"),
                                          ("task_id", toString task_id),
                                          ("task_queue_contract", task_queue_contract)] }, s₂)

/-- Embedding of `instantiate` of the median-spread verifier: validate the
percentage configuration, then save it. -/
def oracle_instantiate (s : StoreO) (operator_contract : Addr)
    (threshold_percent allowed_spread slashable_spread required_percentage : Nat) :
    Except ContractError (Response Unit) × StoreO :=
  match validate_percentages threshold_percent allowed_spread slashable_spread with
  | .error e => (.error e, s)
  | .ok _ =>
    (.ok Response.empty,
      { s with config := some ⟨operator_contract, threshold_percent, allowed_spread,
          slashable_spread, required_percentage⟩ })

end AvsOracle

namespace AvsOracle

/-! Helper lemmas shared by the claim theorems. -/

/-- Lookup after insert-or-replace at the same key returns the inserted value. -/
theorem alistFind_insert {κ ν : Type} [DecidableEq κ] (k : κ) (v : ν)
    (l : List (κ × ν)) : alistFind k (alistInsert k v l) = some v := by
  simp [alistFind, alistInsert]

/-- Median is invariant under permutation of the submitted values, since it is
computed from the ascending sort alone. -/
theorem calculate_median_perm {l₁ l₂ : List Nat} (h : l₁.Perm l₂) :
    calculate_median l₁ = calculate_median l₂ := by
  have e : List.insertionSort (· ≤ ·) l₁ = List.insertionSort (· ≤ ·) l₂ :=
    List.eq_of_perm_of_sorted
      ((List.perm_insertionSort _ l₁).trans
        (h.trans (List.perm_insertionSort _ l₂).symm))
      (List.sorted_insertionSort _ l₁) (List.sorted_insertionSort _ l₂)
  unfold calculate_median
  rw [e]

/-- Ceiling multiplication by `Decimal::percent(p)` is exactly the ceiling of
`total * p / 100`. -/
theorem mulCeil_percent (total p : Nat) :
    mulCeil total (decimalPercent p) = (total * p + 99) / 100 := by
  unfold mulCeil decimalPercent decimalOne
  have h1 : total * (p * 10 ^ 16) + (10 ^ 18 - 1)
      = 10 ^ 16 * (total * p + 99) + (10 ^ 16 - 1) := by
    have h2 : total * (p * 10 ^ 16) = total * p * 10 ^ 16 := by ring
    rw [h2]
    generalize total * p = x
    omega
  rw [h1, show (10 : Nat) ^ 18 = 10 ^ 16 * 100 by norm_num,
    ← Nat.div_div_eq_div_mul, Nat.mul_add_div (by norm_num)]
  norm_num

end AvsOracle

namespace AvsOracle

/-- Reference median following the spec's words for the even case: the
arithmetic mean of the two central elements of the ascending sort with any
fractional (sub-atomic) remainder rounded half-up. -/
def median_spec_halfup (values : List Nat) : Nat :=
  let sorted := List.insertionSort (· ≤ ·) values
  if sorted.length = 0 then 0
  else if sorted.length % 2 = 0 then
    (sorted.getD (sorted.length / 2 - 1) 0 + sorted.getD (sorted.length / 2) 0 + 1) / 2
  else sorted.getD (sorted.length / 2) 0

/-- C1 counterexample: on the two atomics `1` and `2` (that is, the decimals
`0.000000000000000001` and `0.000000000000000002`) the code truncates the mean
`1.5` atomics to `1` atomic, while the claimed half-up rounding demands `2`
atomics, so `calculate_median` does not round half-up. -/
theorem calculate_median_not_halfup :
    calculate_median [1, 2] = 1 ∧ median_spec_halfup [1, 2] = 2 ∧
      calculate_median [1, 2] ≠ median_spec_halfup [1, 2] := by decide

/-- C1 (amended): `calculate_median` returns `0` on the empty list, the middle
element of the ascending sort for odd length, and for even length the
arithmetic mean of the two central elements with any fractional (sub-atomic)
remainder rounded DOWN (the `Decimal / Uint128` division truncates), not
half-up.  Stated against an arbitrary ascending arrangement of the values. -/
theorem calculate_median_spec (values sorted : List Nat)
    (hsorted : sorted.Sorted (· ≤ ·)) (hperm : values.Perm sorted) :
    calculate_median values =
      if sorted.length = 0 then 0
      else if sorted.length % 2 = 0 then
        (sorted.getD (sorted.length / 2 - 1) 0 + sorted.getD (sorted.length / 2) 0) / 2
      else sorted.getD (sorted.length / 2) 0 := by
  have e : List.insertionSort (· ≤ ·) values = sorted :=
    List.eq_of_perm_of_sorted ((List.perm_insertionSort _ values).trans hperm)
      (List.sorted_insertionSort _ values) hsorted
  unfold calculate_median
  rw [e]

/-- Witness for C1's amended theorem at the spec's own example `[1, 3, 5, 7]`
(scaled to whole units of `10^18` atomics), submitted out of order. -/
theorem calculate_median_spec_witness :
    calculate_median [7 * decimalOne, 1 * decimalOne, 5 * decimalOne, 3 * decimalOne] =
      if ([1 * decimalOne, 3 * decimalOne, 5 * decimalOne, 7 * decimalOne] : List Nat).length = 0
      then 0
      else if ([1 * decimalOne, 3 * decimalOne, 5 * decimalOne, 7 * decimalOne] : List Nat).length % 2 = 0 then
        (([1 * decimalOne, 3 * decimalOne, 5 * decimalOne, 7 * decimalOne] : List Nat).getD
            (([1 * decimalOne, 3 * decimalOne, 5 * decimalOne, 7 * decimalOne] : List Nat).length / 2 - 1) 0 +
          ([1 * decimalOne, 3 * decimalOne, 5 * decimalOne, 7 * decimalOne] : List Nat).getD
            (([1 * decimalOne, 3 * decimalOne, 5 * decimalOne, 7 * decimalOne] : List Nat).length / 2) 0) / 2
      else
        ([1 * decimalOne, 3 * decimalOne, 5 * decimalOne, 7 * decimalOne] : List Nat).getD
          (([1 * decimalOne, 3 * decimalOne, 5 * decimalOne, 7 * decimalOne] : List Nat).length / 2) 0 :=
  calculate_median_spec
    [7 * decimalOne, 1 * decimalOne, 5 * decimalOne, 3 * decimalOne]
    [1 * decimalOne, 3 * decimalOne, 5 * decimalOne, 7 * decimalOne]
    (by decide) (by decide)

/-- C4: the threshold evaluator is the exact rational comparison: for positive
total power (and valid power at most the total, the overflow-free domain of
`Decimal::from_ratio` in this contract), `is_threshold_met` returns `true`
exactly when `valid_power / total_power ≥ threshold_percent` as rationals
(`threshold_percent` being atomics of the `Decimal` threshold). -/
theorem is_threshold_met_exact (valid_power total_power threshold_percent : Nat)
    (htp : 0 < total_power) (hle : valid_power ≤ total_power) :
    is_threshold_met valid_power total_power threshold_percent = true ↔
      (threshold_percent : ℚ) / (decimalOne : ℚ) ≤
        (valid_power : ℚ) / (total_power : ℚ) := by
  unfold is_threshold_met ratioFloor
  rw [decide_eq_true_eq, Nat.le_div_iff_mul_le htp,
    div_le_div_iff₀ (by unfold decimalOne; positivity) (by exact_mod_cast htp)]
  exact_mod_cast Iff.rfl

/-- Witness for C4 at `valid_power = 4`, `total_power = 5`, threshold `0.8`:
the boundary case holds exactly. -/
theorem is_threshold_met_exact_witness :
    is_threshold_met 4 5 (8 * 10 ^ 17) = true ↔
      ((8 * 10 ^ 17 : Nat) : ℚ) / (decimalOne : ℚ) ≤ ((4 : Nat) : ℚ) / ((5 : Nat) : ℚ) :=
  is_threshold_met_exact 4 5 (8 * 10 ^ 17) (by decide) (by decide)

/-- C7: the median-spread tally is order-independent: on any two permutations
of the vote list, `process_votes` yields the same median, the same threshold
decision, and permuted (hence equal as sets) slashable-operator lists. -/
theorem process_votes_perm (votes₁ votes₂ : List (Addr × OperatorVote))
    (total_power : Nat) (config : Config)
    (hperm : votes₁.Perm votes₂)
    (m₁ m₂ : Nat) (sl₁ sl₂ : List Addr) (met₁ met₂ : Bool)
    (h₁ : process_votes votes₁ total_power config = .ok (m₁, sl₁, met₁))
    (h₂ : process_votes votes₂ total_power config = .ok (m₂, sl₂, met₂)) :
    m₁ = m₂ ∧ met₁ = met₂ ∧ sl₁.Perm sl₂ := by
  have hmed : calculate_median (votes₁.map fun pv => pv.2.price)
      = calculate_median (votes₂.map fun pv => pv.2.price) :=
    calculate_median_perm (hperm.map _)
  have hvp : ∀ mn mx : Nat,
      ((filter_valid_votes votes₁ mn mx).map fun pv => pv.2.power).sum
        = ((filter_valid_votes votes₂ mn mx).map fun pv => pv.2.power).sum := by
    intro mn mx
    exact ((hperm.filter _).map _).sum_eq
  have hsl : ∀ mn mx : Nat,
      (identify_slashable_operators votes₁ mn mx).Perm
        (identify_slashable_operators votes₂ mn mx) := by
    intro mn mx
    exact hperm.filterMap _
  simp only [process_votes, Except.ok.injEq, Prod.mk.injEq] at h₁ h₂
  obtain ⟨hm₁, hs₁, hb₁⟩ := h₁
  obtain ⟨hm₂, hs₂, hb₂⟩ := h₂
  subst hm₁ hs₁ hb₁ hm₂ hs₂ hb₂
  refine ⟨hmed, ?_, ?_⟩
  · rw [hmed, hvp]
  · rw [hmed]
    exact hsl _ _

/-- Witness for C7 on the two orderings of a concrete two-vote list. -/
theorem process_votes_perm_witness :
    (10 : Nat) = 10 ∧ (true = true) ∧
      ([] : List Addr).Perm ([] : List Addr) :=
  process_votes_perm
    [("a", ⟨3, 10⟩), ("b", ⟨4, 10⟩)] [("b", ⟨4, 10⟩), ("a", ⟨3, 10⟩)]
    7 ⟨"ops", decimalPercent 100, decimalPercent 10, decimalPercent 20, 50⟩
    (by decide) 10 10 [] [] true true (by decide) (by decide)

/-- C8: construction validates the configuration: `validate_percentages`
succeeds exactly when each of `threshold_percent`, `allowed_spread`,
`slashable_spread` lies in `(0, 1]` (atomics in `(0, 10^18]`) and
`slashable_spread` exceeds `allowed_spread`; verifier-simple's `instantiate`
rejects with `InvalidPercentage` exactly when `required_percentage` lies
outside `(0, 100]`. -/
theorem construction_validates_config
    (threshold_percent allowed_spread slashable_spread : Nat)
    (s : StoreVS) (operator_contract : Addr) (required_percentage : Nat) :
    (validate_percentages threshold_percent allowed_spread slashable_spread = .ok () ↔
      (0 < threshold_percent ∧ threshold_percent ≤ decimalPercent 100 ∧
       0 < allowed_spread ∧ allowed_spread ≤ decimalPercent 100 ∧
       0 < slashable_spread ∧ slashable_spread ≤ decimalPercent 100 ∧
       allowed_spread < slashable_spread)) ∧
    ((vs_instantiate s operator_contract required_percentage).1 =
        .error .InvalidPercentage ↔
      (required_percentage = 0 ∨ 100 < required_percentage)) := by
  constructor
  · unfold validate_percentages
    split_ifs <;> simp_all <;> omega
  · unfold vs_instantiate
    split_ifs with h <;> simp <;> omega

end AvsOracle

namespace AvsOracle

/-- C5: on the first vote for a task the registry reports Open, the metadata
is initialized with `power_required = ceiling(total_power * required_percentage
/ 100)` from the total power at the task's creation checkpoint and persisted
(first conjunct); on every later load the cached snapshot is returned
unchanged without recomputation and without touching storage (second
conjunct). -/
theorem load_or_initialize_required_weight (q : Querier) (env : BlockEnv)
    (config : ConfigVS) (s : StoreVS) (task_queue : Addr) (task_id : Nat) :
    (∀ ts total_power,
      alistFind (task_queue, task_id) s.tasks = none →
      q.taskStatus task_queue task_id = some ts →
      ts.status = .Open →
      q.totalPowerAtHeight config.operators ts.created_height = some total_power →
      ∃ meta,
        load_or_initialize_metadata q env config s task_queue task_id =
          (.ok meta, { s with tasks := alistInsert (task_queue, task_id) meta s.tasks }) ∧
        meta.power_required = (total_power * config.required_percentage + 99) / 100) ∧
    (∀ meta,
      alistFind (task_queue, task_id) s.tasks = some meta →
      meta.status = .Open →
      meta.is_expired env = false →
      load_or_initialize_metadata q env config s task_queue task_id = (.ok meta, s)) := by
  constructor
  · intro ts total_power hnone hts hopen htotal
    simp only [load_or_initialize_metadata, hnone, hts, hopen, htotal]
    exact ⟨_, rfl, mulCeil_percent total_power config.required_percentage⟩
  · intro meta hsome hopen hunexp
    simp [load_or_initialize_metadata, hsome, hopen, hunexp]

end AvsOracle

namespace AvsOracle

/-- Test fixture: a querier whose registry reports an Open task created at
height 7 expiring at 100, with total power 601 and operator power 10. -/
def fixQuerier : Querier :=
  { taskStatus := fun _ _ => some ⟨.Open, 7, 100⟩
    votingPowerAtHeight := fun _ _ _ => some 10
    totalPowerAtHeight := fun _ _ => some 601 }

/-- Test fixture: exact-match verifier config with 50 percent required. -/
def fixConfigVS : ConfigVS := ⟨"ops", 50⟩

/-- Test fixture: freshly instantiated exact-match store. -/
def fixStoreVS : StoreVS := ⟨some fixConfigVS, [], [], []⟩

/-- Test fixture: the metadata snapshot the fixture querier induces
(`ceil(601 * 50 / 100) = 301`). -/
def fixMeta : TaskMetadata := ⟨301, .Open, 7, 100⟩

/-- Test fixture: exact-match store with the snapshot already cached. -/
def fixStoreVSCached : StoreVS := ⟨some fixConfigVS, [], [(("tq", 1), fixMeta)], []⟩

/-- Witness for C5: with total power 601 and 50 percent required the snapshot
is initialized with `power_required = ceil(601 * 50 / 100) = 301` and
persisted, and a later load returns the cached snapshot unchanged. -/
theorem load_or_initialize_required_weight_witness :
    (∃ meta,
      load_or_initialize_metadata fixQuerier ⟨0⟩ fixConfigVS fixStoreVS "tq" 1 =
        (.ok meta,
          { fixStoreVS with tasks := alistInsert ("tq", 1) meta fixStoreVS.tasks }) ∧
      meta.power_required = (601 * fixConfigVS.required_percentage + 99) / 100) ∧
    load_or_initialize_metadata fixQuerier ⟨0⟩ fixConfigVS fixStoreVSCached "tq" 1 =
      (.ok fixMeta, fixStoreVSCached) :=
  ⟨(load_or_initialize_required_weight fixQuerier ⟨0⟩ fixConfigVS fixStoreVS "tq" 1).1
      ⟨.Open, 7, 100⟩ 601 (by decide) rfl rfl rfl,
   (load_or_initialize_required_weight fixQuerier ⟨0⟩ fixConfigVS fixStoreVSCached "tq" 1).2
      fixMeta (by decide) rfl (by decide)⟩

/-- C3: a second submission by a participant who already has a stored vote for
the task fails with the duplicate-vote error, leaves the whole store (raw
execution, before any host rollback) unchanged, and the stored vote is still
the first one. -/
theorem duplicate_vote_rejected (q : Querier) (parses : String → Bool)
    (env : BlockEnv) (info : MessageInfo) (s : StoreVS) (task_queue : Addr)
    (task_id : Nat) (result : String) (vote : OperatorVoteVS)
    (hfunds : info.funds = [])
    (hparse : parses result = true)
    (hvoted : alistFind (task_queue, task_id, info.sender) s.votes = some vote) :
    vs_executed_task q parses env info s task_queue task_id result =
      (.error (.OperatorAlreadyVoted info.sender), s) ∧
    alistFind (task_queue, task_id, info.sender)
        (vs_executed_task q parses env info s task_queue task_id result).2.votes =
      some vote := by
  have h : vs_executed_task q parses env info s task_queue task_id result =
      (.error (.OperatorAlreadyVoted info.sender), s) := by
    simp [vs_executed_task, ensure_valid_vote, hfunds, hparse, hvoted]
  exact ⟨h, by rw [h]; exact hvoted⟩

/-- Test fixture: exact-match store with a Completed snapshot and a recorded
vote by operator `op`. -/
def fixStoreVSDup : StoreVS :=
  ⟨some fixConfigVS, [(("tq", 1, "op"), ⟨10, "r"⟩)],
    [(("tq", 1), ⟨301, .Completed, 7, 100⟩)], []⟩

/-- Witness for C3 on the fixture store with a recorded vote. -/
theorem duplicate_vote_rejected_witness :
    vs_executed_task fixQuerier (fun _ => true) ⟨0⟩ ⟨"op", []⟩ fixStoreVSDup "tq" 1 "r" =
      (.error (.OperatorAlreadyVoted "op"), fixStoreVSDup) ∧
    alistFind ("tq", 1, "op")
        (vs_executed_task fixQuerier (fun _ => true) ⟨0⟩ ⟨"op", []⟩ fixStoreVSDup
          "tq" 1 "r").2.votes =
      some ⟨10, "r"⟩ :=
  duplicate_vote_rejected fixQuerier (fun _ => true) ⟨0⟩ ⟨"op", []⟩ fixStoreVSDup
    "tq" 1 "r" ⟨10, "r"⟩ rfl rfl (by decide)

/-- C9: the duplicate-vote check runs before the task-status check: a repeat
voter receives the `OperatorAlreadyVoted` error whatever the task state
(first conjunct, with no assumption on the stored task), while a fresh
operator on a Completed or Expired task receives the benign `Ok(None)`
early exit (second conjunct). -/
theorem duplicate_check_precedes_status_check (q : Querier) (env : BlockEnv)
    (s : StoreVS) (task_queue : Addr) (task_id : Nat) (operator : Addr) :
    (∀ vote, alistFind (task_queue, task_id, operator) s.votes = some vote →
      ensure_valid_vote q env s task_queue task_id operator =
        (.error (.OperatorAlreadyVoted operator), s)) ∧
    (∀ config meta,
      alistFind (task_queue, task_id, operator) s.votes = none →
      s.config = some config →
      alistFind (task_queue, task_id) s.tasks = some meta →
      (meta.status = .Completed ∨ meta.status = .Expired) →
      ensure_valid_vote q env s task_queue task_id operator = (.ok none, s)) := by
  constructor
  · intro vote hvoted
    simp [ensure_valid_vote, hvoted]
  · intro config meta hnovote hconfig hmeta hdone
    rcases hdone with hdone | hdone <;>
      simp [ensure_valid_vote, load_or_initialize_metadata, hnovote, hconfig,
        hmeta, hdone]

/-- Witness for C9: on the fixture store, the repeat voter `op` hits the
duplicate error although the task is Completed, while the fresh voter `op2`
receives the benign early exit. -/
theorem duplicate_check_precedes_status_check_witness :
    ensure_valid_vote fixQuerier ⟨0⟩ fixStoreVSDup "tq" 1 "op" =
      (.error (.OperatorAlreadyVoted "op"), fixStoreVSDup) ∧
    ensure_valid_vote fixQuerier ⟨0⟩ fixStoreVSDup "tq" 1 "op2" =
      (.ok none, fixStoreVSDup) :=
  ⟨(duplicate_check_precedes_status_check fixQuerier ⟨0⟩ fixStoreVSDup "tq" 1 "op").1
      ⟨10, "r"⟩ (by decide),
   (duplicate_check_precedes_status_check fixQuerier ⟨0⟩ fixStoreVSDup "tq" 1 "op2").2
      fixConfigVS ⟨301, .Completed, 7, 100⟩ (by decide) rfl (by decide) (Or.inl rfl)⟩

end AvsOracle

namespace AvsOracle

/-- Every failing branch of `load_or_initialize_metadata` occurs before its
single store write, so an error result leaves the store unchanged. -/
theorem loadOrInit_error_store (q : Querier) (env : BlockEnv) (config : ConfigVS)
    (s : StoreVS) (task_queue : Addr) (task_id : Nat) (e : ContractError)
    (h : (load_or_initialize_metadata q env config s task_queue task_id).1 = .error e) :
    load_or_initialize_metadata q env config s task_queue task_id = (.error e, s) := by
  unfold load_or_initialize_metadata at h ⊢
  revert h
  repeat' split
  all_goals intro h
  all_goals simp_all

/-- Shared helper: whenever `load_or_initialize_metadata` fails, the
submission path of the exact-match verifier (for a fee-free, parseable
submission by an operator without a prior vote) returns the benign default
response and leaves the store unchanged. -/
theorem vs_executed_task_swallows_load_error (q : Querier) (parses : String → Bool)
    (env : BlockEnv) (info : MessageInfo) (s : StoreVS) (task_queue : Addr)
    (task_id : Nat) (result : String) (config : ConfigVS) (e : ContractError)
    (hfunds : info.funds = []) (hparse : parses result = true)
    (hnovote : alistFind (task_queue, task_id, info.sender) s.votes = none)
    (hconfig : s.config = some config)
    (herr : (load_or_initialize_metadata q env config s task_queue task_id).1 = .error e) :
    vs_executed_task q parses env info s task_queue task_id result =
      (.ok Response.empty, s) := by
  have h2 := loadOrInit_error_store q env config s task_queue task_id e herr
  simp [vs_executed_task, ensure_valid_vote, hfunds, hparse, hnovote, hconfig, h2]

/-- C10: every error of the metadata load/initialization — the
Completed/Expired rejections as well as a failed task registry status query or
a failed total-power query — is swallowed by the submission path into the same
benign default-success outcome, with the store unchanged, so a first voter
whose external queries fail gets a success response with no vote recorded. -/
theorem load_errors_swallowed_into_noop (q : Querier) (parses : String → Bool)
    (env : BlockEnv) (info : MessageInfo) (s : StoreVS) (task_queue : Addr)
    (task_id : Nat) (result : String) (config : ConfigVS) (e : ContractError)
    (hfunds : info.funds = []) (hparse : parses result = true)
    (hnovote : alistFind (task_queue, task_id, info.sender) s.votes = none)
    (hconfig : s.config = some config)
    (herr : (load_or_initialize_metadata q env config s task_queue task_id).1 = .error e) :
    vs_executed_task q parses env info s task_queue task_id result =
      (.ok Response.empty, s) ∧
    alistFind (task_queue, task_id, info.sender)
        (vs_executed_task q parses env info s task_queue task_id result).2.votes =
      none := by
  have h := vs_executed_task_swallows_load_error q parses env info s task_queue
    task_id result config e hfunds hparse hnovote hconfig herr
  exact ⟨h, by rw [h]; exact hnovote⟩

/-- Test fixture: a querier whose task registry status query fails. -/
def fixQuerierFail : Querier :=
  { taskStatus := fun _ _ => none
    votingPowerAtHeight := fun _ _ _ => some 10
    totalPowerAtHeight := fun _ _ => some 601 }

/-- Witness for C10: a first voter whose registry status query fails gets the
benign default response and no vote is recorded. -/
theorem load_errors_swallowed_into_noop_witness :
    vs_executed_task fixQuerierFail (fun _ => true) ⟨0⟩ ⟨"op", []⟩ fixStoreVS
        "tq" 1 "r" =
      (.ok Response.empty, fixStoreVS) ∧
    alistFind ("tq", 1, "op")
        (vs_executed_task fixQuerierFail (fun _ => true) ⟨0⟩ ⟨"op", []⟩ fixStoreVS
          "tq" 1 "r").2.votes =
      none :=
  load_errors_swallowed_into_noop fixQuerierFail (fun _ => true) ⟨0⟩ ⟨"op", []⟩
    fixStoreVS "tq" 1 "r" fixConfigVS .StdError rfl rfl (by decide) rfl (by decide)

/-- C2 counterexample: a vote submission against a Completed task is not
always a benign no-op: the operator `op`, who already voted on task 1, gets
the hard `OperatorAlreadyVoted` error from the same submission path, because
the duplicate-vote check runs before the task-status check. -/
theorem vote_on_finished_task_can_error :
    (alistFind ("tq", 1) fixStoreVSDup.tasks).map TaskMetadata.status =
      some TaskStatus.Completed ∧
    vs_executed_task fixQuerier (fun _ => true) ⟨0⟩ ⟨"op", []⟩ fixStoreVSDup
        "tq" 1 "r" =
      (.error (.OperatorAlreadyVoted "op"), fixStoreVSDup) := by decide

/-- C2 (amended): for every fee-free, parseable vote submission by an operator
with no prior vote on the task, against a task that is already Completed or
already Expired (stored as such, stored Open but past expiry, or reported as
such by the registry on first contact), the submission path returns the benign
default-success outcome — no error — and mutates neither the stored votes nor
the stored task state. -/
theorem fresh_vote_on_finished_task_noop (q : Querier) (parses : String → Bool)
    (env : BlockEnv) (info : MessageInfo) (s : StoreVS) (task_queue : Addr)
    (task_id : Nat) (result : String) (config : ConfigVS)
    (hfunds : info.funds = []) (hparse : parses result = true)
    (hnovote : alistFind (task_queue, task_id, info.sender) s.votes = none)
    (hconfig : s.config = some config)
    (hdone :
      (∃ meta, alistFind (task_queue, task_id) s.tasks = some meta ∧
        (meta.status = .Completed ∨ meta.status = .Expired ∨
          (meta.status = .Open ∧ meta.expires_time ≤ env.time))) ∨
      (alistFind (task_queue, task_id) s.tasks = none ∧
        ∃ ts, q.taskStatus task_queue task_id = some ts ∧
          (ts.status = .Completed ∨ ts.status = .Expired))) :
    vs_executed_task q parses env info s task_queue task_id result =
      (.ok Response.empty, s) := by
  have herr : ∃ e,
      (load_or_initialize_metadata q env config s task_queue task_id).1 = .error e := by
    rcases hdone with ⟨meta, hmeta, hst⟩ | ⟨hnone, ts, hts, hst⟩
    · rcases hst with h | h | ⟨h, hexp⟩
      · exact ⟨.TaskAlreadyCompleted, by simp [load_or_initialize_metadata, hmeta, h]⟩
      · exact ⟨.TaskExpired, by simp [load_or_initialize_metadata, hmeta, h]⟩
      · exact ⟨.TaskExpired, by
          simp [load_or_initialize_metadata, hmeta, h, TaskMetadata.is_expired, hexp]⟩
    · rcases hst with h | h
      · exact ⟨.TaskAlreadyCompleted, by
          simp [load_or_initialize_metadata, hnone, hts, h]⟩
      · exact ⟨.TaskExpired, by simp [load_or_initialize_metadata, hnone, hts, h]⟩
  obtain ⟨e, he⟩ := herr
  exact vs_executed_task_swallows_load_error q parses env info s task_queue task_id
    result config e hfunds hparse hnovote hconfig he

/-- Witness for C2's amended theorem: a fresh operator `op2` submitting
against the Completed task of the fixture store receives the benign no-op. -/
theorem fresh_vote_on_finished_task_noop_witness :
    vs_executed_task fixQuerier (fun _ => true) ⟨0⟩ ⟨"op2", []⟩ fixStoreVSDup
        "tq" 1 "r" =
      (.ok Response.empty, fixStoreVSDup) :=
  fresh_vote_on_finished_task_noop fixQuerier (fun _ => true) ⟨0⟩ ⟨"op2", []⟩
    fixStoreVSDup "tq" 1 "r" fixConfigVS rfl rfl (by decide) rfl
    (Or.inl ⟨⟨301, .Completed, 7, 100⟩, by decide, Or.inl rfl⟩)

end AvsOracle

namespace AvsOracle

/-- Metadata load/initialization of the median-spread verifier touches only
the `tasks` field of the store. -/
theorem o_loadOrInit_frame (q : Querier) (env : BlockEnv) (rp : Nat) (ops : Addr)
    (s : StoreO) (tq : Addr) (tid : Nat) :
    (o_load_or_initialize_metadata q env rp ops s tq tid).2.config = s.config ∧
    (o_load_or_initialize_metadata q env rp ops s tq tid).2.votes = s.votes ∧
    (o_load_or_initialize_metadata q env rp ops s tq tid).2.slashed_operators =
      s.slashed_operators := by
  unfold o_load_or_initialize_metadata
  repeat' split
  all_goals simp

/-- On success, the metadata load/initialization leaves an Open snapshot
stored under the task key. -/
theorem o_loadOrInit_ok (q : Querier) (env : BlockEnv) (rp : Nat) (ops : Addr)
    (s : StoreO) (tq : Addr) (tid : Nat) (m : TaskMetadata) (s₁ : StoreO)
    (h : o_load_or_initialize_metadata q env rp ops s tq tid = (.ok m, s₁)) :
    alistFind (tq, tid) s₁.tasks = some m ∧ m.status = .Open := by
  unfold o_load_or_initialize_metadata at h
  revert h
  repeat' split
  all_goals intro h
  all_goals try simp_all [alistFind_insert]
  obtain ⟨h1, h2⟩ := h
  subst h1
  subst h2
  simp [alistFind_insert]

/-- The validation helper touches only the `tasks` field of the store. -/
theorem helpers_evv_frame (q : Querier) (env : BlockEnv) (s : StoreO) (tq : Addr)
    (tid : Nat) (op : Addr) (rp : Nat) (ops : Addr) :
    (helpers_ensure_valid_vote q env s tq tid op rp ops).2.config = s.config ∧
    (helpers_ensure_valid_vote q env s tq tid op rp ops).2.votes = s.votes ∧
    (helpers_ensure_valid_vote q env s tq tid op rp ops).2.slashed_operators =
      s.slashed_operators := by
  have hf := o_loadOrInit_frame q env rp ops s tq tid
  unfold helpers_ensure_valid_vote
  repeat' split
  all_goals simp_all

/-- On an accepting exit of the validation helper, the returned metadata is
the Open snapshot stored under the task key of the returned store. -/
theorem helpers_evv_ok_some (q : Querier) (env : BlockEnv) (s : StoreO) (tq : Addr)
    (tid : Nat) (op : Addr) (rp : Nat) (ops : Addr) (md : TaskMetadata) (pw : Nat)
    (s₁ : StoreO)
    (h : helpers_ensure_valid_vote q env s tq tid op rp ops =
      (.ok (some (md, pw)), s₁)) :
    alistFind (tq, tid) s₁.tasks = some md ∧ md.status = .Open := by
  rcases hlo : o_load_or_initialize_metadata q env rp ops s tq tid with ⟨r, s₂⟩
  cases hv : alistFind (tq, tid, op) s.votes with
  | some vote => simp [helpers_ensure_valid_vote, hv] at h
  | none =>
    cases r with
    | error e => simp [helpers_ensure_valid_vote, hv, hlo] at h
    | ok metadata =>
      cases hp : q.votingPowerAtHeight ops op metadata.created_height with
      | none => simp [helpers_ensure_valid_vote, hv, hlo, hp] at h
      | some power =>
        by_cases hz : power = 0
        · simp [helpers_ensure_valid_vote, hv, hlo, hp, hz] at h
        · simp only [helpers_ensure_valid_vote, hv, hlo, hp, if_neg hz,
            Except.ok.injEq, Option.some.injEq, Prod.mk.injEq] at h
          obtain ⟨⟨hmd, hpw⟩, hs⟩ := h
          subst hmd
          subst hs
          exact o_loadOrInit_ok q env rp ops s tq tid _ _ hlo

end AvsOracle

namespace AvsOracle

/-- C6: a median-spread vote submission that passes validation but does not
finalize — either the accumulated power of all votes stays below
`power_required` (the prerequisite gate) or the tally reports the threshold
as not met — persists the new vote, writes no slashing record, leaves the
task's stored snapshot Open, and returns a non-error, non-finalizing response
(no `Complete` message is dispatched). -/
theorem non_finalizing_vote_effects (q : Querier) (parsePrice : String → Option Nat)
    (env : BlockEnv) (info : MessageInfo) (s s₁ s₂ : StoreO) (task_queue : Addr)
    (task_id : Nat) (result : String) (config : Config) (task_data : TaskMetadata)
    (power price total : Nat)
    (hfunds : info.funds = [])
    (hconfig : s.config = some config)
    (hvalid : helpers_ensure_valid_vote q env s task_queue task_id info.sender
        config.required_percentage config.operators =
      (.ok (some (task_data, power)), s₁))
    (hprice : parsePrice result = some price)
    (hpz : price ≠ 0)
    (hs₂ : s₂ = saveVoteO s₁ task_queue task_id info.sender ⟨power, price⟩)
    (htotal : total =
      ((votesForTask s₂ task_queue task_id).map fun pv => pv.2.power).sum)
    (hnofin : total < task_data.power_required ∨
      (task_data.power_required ≤ total ∧
        ∃ median slashable,
          process_votes (votesForTask s₂ task_queue task_id) total config =
            .ok (median, slashable, false))) :
    ∃ resp, executed_task q parsePrice env info s task_queue task_id result =
        (.ok resp, s₂) ∧
      resp.messages = [] ∧
      alistFind (task_queue, task_id, info.sender) s₂.votes = some ⟨power, price⟩ ∧
      s₂.slashed_operators = s.slashed_operators ∧
      alistFind (task_queue, task_id) s₂.tasks = some task_data ∧
      task_data.status = .Open := by
  subst hs₂
  subst htotal
  have hframe := helpers_evv_frame q env s task_queue task_id info.sender
    config.required_percentage config.operators
  rw [hvalid] at hframe
  obtain ⟨hc₁, hv₁, hsl₁⟩ := hframe
  obtain ⟨htask, hopen⟩ := helpers_evv_ok_some q env s task_queue task_id info.sender
    config.required_percentage config.operators task_data power s₁ hvalid
  have hvotes : alistFind (task_queue, task_id, info.sender)
      (saveVoteO s₁ task_queue task_id info.sender ⟨power, price⟩).votes =
      some ⟨power, price⟩ := alistFind_insert _ _ _
  have hsl₂ : (saveVoteO s₁ task_queue task_id info.sender
      ⟨power, price⟩).slashed_operators = s.slashed_operators := hsl₁
  have htask₂ : alistFind (task_queue, task_id)
      (saveVoteO s₁ task_queue task_id info.sender ⟨power, price⟩).tasks =
      some task_data := htask
  have hcfg₂ : (saveVoteO s₁ task_queue task_id info.sender ⟨power, price⟩).config =
      some config := by
    rw [show (saveVoteO s₁ task_queue task_id info.sender ⟨power, price⟩).config =
      s₁.config from rfl, hc₁, hconfig]
  rcases hnofin with hlt | ⟨hge, median, slashable, hpv⟩
  · refine ⟨⟨[], [("method", "executed_task"), ("status", "vote_stored")]⟩, ?_,
      rfl, hvotes, hsl₂, htask₂, hopen⟩
    simp [executed_task, hfunds, hconfig, hvalid, hprice, hpz, hlt]
  · refine ⟨⟨[], [("status", "threshold_not_met"), ("method", "executed_task"),
      ("task_id", toString task_id), ("task_queue_contract", task_queue)]⟩, ?_,
      rfl, hvotes, hsl₂, htask₂, hopen⟩
    have hnlt : ¬(((votesForTask (saveVoteO s₁ task_queue task_id info.sender
        ⟨power, price⟩) task_queue task_id).map fun pv => pv.2.power).sum <
          task_data.power_required) := not_lt.mpr hge
    simp [executed_task, hfunds, hconfig, hvalid, hprice, hpz, hnlt, hcfg₂, hpv]

end AvsOracle

namespace AvsOracle

/-- Test fixture: median-spread config (threshold 0.7, spreads 0.1 and 0.2,
50 percent required). -/
def fixConfigO : Config :=
  ⟨"ops", decimalPercent 70, decimalPercent 10, decimalPercent 20, 50⟩

/-- Test fixture: freshly instantiated median-spread store. -/
def fixStoreO : StoreO := ⟨some fixConfigO, [], [], []⟩

/-- Test fixture: median-spread store after the first voter initialized the
snapshot (total power 601, 50 percent → 301 required). -/
def fixStoreO1 : StoreO := ⟨some fixConfigO, [], [(("tq", 1), fixMeta)], []⟩

/-- Test fixture: the same store after the first vote (power 10, price 42)
was recorded. -/
def fixStoreO2 : StoreO := saveVoteO fixStoreO1 "tq" 1 "op" ⟨10, 42 * decimalOne⟩

/-- Witness for C6: the first voter (power 10, far below the required 301)
gets the `vote_stored` non-finalizing outcome, the vote is persisted, nothing
is slashed, the task stays Open. -/
theorem non_finalizing_vote_effects_witness :
    ∃ resp, executed_task fixQuerier (fun _ => some (42 * decimalOne)) ⟨0⟩
        ⟨"op", []⟩ fixStoreO "tq" 1 "42" = (.ok resp, fixStoreO2) ∧
      resp.messages = [] ∧
      alistFind ("tq", 1, "op") fixStoreO2.votes = some ⟨10, 42 * decimalOne⟩ ∧
      fixStoreO2.slashed_operators = fixStoreO.slashed_operators ∧
      alistFind ("tq", 1) fixStoreO2.tasks = some fixMeta ∧
      fixMeta.status = .Open :=
  non_finalizing_vote_effects fixQuerier (fun _ => some (42 * decimalOne)) ⟨0⟩
    ⟨"op", []⟩ fixStoreO fixStoreO1 fixStoreO2 "tq" 1 "42" fixConfigO fixMeta
    10 (42 * decimalOne) 10 rfl rfl (by decide) rfl (by decide) rfl (by decide)
    (Or.inl (by decide))

end AvsOracle
